import Mathlib

/-!
Shallow embedding of the `color-printer` repository (`src/color_printer.cpp`
and its header): a console color-printing helper with string and scalar
overloads of `PrintColoredMessage`, a printf-style formatter, and a stateful
dot-progress indicator `PrintSilentStatusIndicator`.

Conventions of the embedding:
* C++ `std::string` and `const char*` values are Lean `String`s.
* Writes to `std::cout` are modeled as a list of output events: a chain of
  stream insertions contributes one `OutEvent.write` carrying the
  concatenated bytes, and `std::flush` or `std::endl` contributes an
  `OutEvent.flush` (`std::endl` first appends a newline to the written
  bytes).
* The by-reference `int countRef` cell of the progress indicator is threaded
  explicitly: a call maps the old cell value (as `Int`) to the new one,
  paired with the emitted events.
* `enum class PrintColor` is a seven-constructor inductive; its underlying
  integer representation (0..6) is `PrintColor.toInt`, and the `switch` of
  `GetColorCode`, including its `default:` branch, is embedded over the
  underlying integers as `GetColorCodeRaw`.
* The variadic `FormatPrintf` delegates to the external libc `vsnprintf`;
  that external call is modeled as an explicit input: the pair of the size
  it reports and the text it would write given a large enough buffer.
* In the template `FormatString`, the default textual rendering
  `std::stringstream ss; ss << first` of a variadic argument is modeled as
  an opaque already-rendered `String`.
-/

/-- Output events on `std::cout`: a write of raw bytes, or a flush. -/
inductive OutEvent where
  | write : String → OutEvent
  | flush : OutEvent
  deriving DecidableEq, Repr

/-- The `enum class PrintColor` with its seven enumerators. -/
inductive PrintColor where
  | RED
  | GREEN
  | YELLOW
  | BLUE
  | MAGENTA
  | CYAN
  | WHITE
  deriving DecidableEq, Repr, Fintype

/-- Underlying integer value of a `PrintColor` enumerator (C++ assigns
0..6 in declaration order). -/
def PrintColor.toInt : PrintColor → Int
  | .RED => 0
  | .GREEN => 1
  | .YELLOW => 2
  | .BLUE => 3
  | .MAGENTA => 4
  | .CYAN => 5
  | .WHITE => 6

namespace ColorPrinter

/-- The `switch` of `ColorPrinter::GetColorCode` (color_printer.cpp lines
155-174) over the underlying integer representation of `PrintColor`; the
final branch is the `default:` case returning the reset sequence. -/
def GetColorCodeRaw (color : Int) : String :=
  if color = 0 then "\x1b[31m"
  else if color = 1 then "\x1b[32m"
  else if color = 2 then "\x1b[33m"
  else if color = 3 then "\x1b[34m"
  else if color = 4 then "\x1b[35m"
  else if color = 5 then "\x1b[36m"
  else if color = 6 then "\x1b[37m"
  else "\x1b[0m"

/-- `ColorPrinter::GetColorCode` applied to a well-typed enumerator. -/
def GetColorCode (color : PrintColor) : String :=
  GetColorCodeRaw color.toInt

/-- Embeds `PrintColoredMessage(PrintColor, const std::string&, const char*)`
(color_printer.cpp lines 18-35). The `%`-detection branch of the source is
kept even though both arms emit the message verbatim. -/
def PrintColoredMessageCstr (color : PrintColor) (type : String)
    (message : String) : List OutEvent :=
  let color_code := GetColorCode color
  let reset_code := "\x1b[0m"
  let msg_str := message
  let hasFormatSpecifier := msg_str.data.contains '%'
  if !hasFormatSpecifier then
    [.write (color_code ++ "[" ++ type ++ "] " ++ msg_str ++ reset_code ++ "\n"), .flush]
  else
    [.write (color_code ++ "[" ++ type ++ "] " ++ msg_str ++ reset_code ++ "\n"), .flush]

/-- Embeds `PrintColoredMessage(PrintColor, const std::string&,
const std::string&)` (color_printer.cpp lines 45-61), branch structure as in
the source. -/
def PrintColoredMessageStr (color : PrintColor) (type : String)
    (message : String) : List OutEvent :=
  let color_code := GetColorCode color
  let reset_code := "\x1b[0m"
  let hasFormatSpecifier := message.data.contains '%'
  if !hasFormatSpecifier then
    [.write (color_code ++ "[" ++ type ++ "] " ++ message ++ reset_code ++ "\n"), .flush]
  else
    [.write (color_code ++ "[" ++ type ++ "] " ++ message ++ reset_code ++ "\n"), .flush]

/-- Embeds `PrintColoredMessage(PrintColor, const std::string&, bool)`
(color_printer.cpp lines 71-79). -/
def PrintColoredMessageBool (color : PrintColor) (type : String)
    (value : Bool) : List OutEvent :=
  let color_code := GetColorCode color
  let reset_code := "\x1b[0m"
  [.write (color_code ++ "[" ++ type ++ "] " ++ (if value then "true" else "false")
      ++ reset_code ++ "\n"), .flush]

/-- Result of the external libc call `vsnprintf(nullptr, 0, format, args)`:
the size it reports (negative on a formatting error) and the text it would
write given a large enough buffer. -/
structure VsnprintfResult where
  size : Int
  text : String
  deriving DecidableEq, Repr

/-- Embeds `ColorPrinter::FormatPrintf` (color_printer.cpp lines 239-260).
The external `vsnprintf` probe is the explicit input `vsn`. On a negative
reported size the function returns the empty string; otherwise it formats
into a buffer of `size + 1` bytes and resizes the result down to `size`
characters. -/
def FormatPrintf (vsn : VsnprintfResult) : String :=
  if vsn.size < 0 then ""
  else String.mk (vsn.text.data.take vsn.size.toNat)

/-- Embeds the variadic template
`PrintColoredMessage(PrintColor, const std::string&, const char* format, T, Args...)`
(header lines 179-193), whose payload is `FormatPrintf(format, first, args...)`. -/
def PrintColoredMessageFmt (color : PrintColor) (type : String)
    (vsn : VsnprintfResult) : List OutEvent :=
  let color_code := GetColorCode color
  let reset_code := "\x1b[0m"
  let message_str := FormatPrintf vsn
  [.write (color_code ++ "[" ++ type ++ "] " ++ message_str ++ reset_code ++ "\n"), .flush]

/-- Conversion-type characters accepted by the scanner of the template
`ColorPrinter::FormatString` (header lines 208-210). -/
def isTypeChar (c : Char) : Bool :=
  c = 'd' || c = 'i' || c = 'u' || c = 'o' || c = 'x' || c = 'X' ||
  c = 'f' || c = 'F' || c = 'e' || c = 'E' || c = 'g' || c = 'G' ||
  c = 'a' || c = 'A' || c = 'c' || c = 's' || c = 'p' || c = 'n'

/-- Flag, width, and precision characters the scanner skips over
(header lines 214-215). -/
def isFlagChar (c : Char) : Bool :=
  c = '-' || c = '+' || c = ' ' || c = '#' || c = '0' ||
  (decide ('0' ≤ c) && decide (c ≤ '9')) || c = '.'

/-- The scan loop of the template `FormatString` (header lines 206-222),
started on the characters just past a `%`: returns how many characters it
consumed and whether it found a valid conversion-type character (the type
character is included in the consumed count, matching `end_pos++` before
`break`). -/
def scanSpec : List Char → Nat × Bool
  | [] => (0, false)
  | c :: rest =>
    if isTypeChar c then (1, true)
    else if isFlagChar c then
      let r := scanSpec rest
      (r.1 + 1, r.2)
    else (0, false)

/-- One substitution step of the template `FormatString` (header lines
195-242) over the character list of the format: find the first `%`; if the
scan finds a full specifier, replace the whole `%...type` run with the
rendered argument, otherwise replace just the `%` itself. Without any `%`
the format is returned unchanged. -/
def fs1 (arg : List Char) : List Char → List Char
  | [] => []
  | c :: rest =>
    if c = '%' then
      let r := scanSpec rest
      if r.2 then arg ++ rest.drop r.1
      else arg ++ rest
    else c :: fs1 arg rest

/-- One substitution step of the template `FormatString` on `String`s;
`arg` is the default textual rendering of the first variadic argument. -/
def FormatStringStep (format : String) (arg : String) : String :=
  String.mk (fs1 arg.data format.data)

/-- The full template recursion `FormatString(format, first, args...)`
with every variadic argument already rendered to text: one substitution
step per argument, then the no-argument base case (color_printer.cpp lines
182-184) returns the string unchanged. -/
def FormatStringRec : String → List String → String
  | format, [] => format
  | format, a :: rest => FormatStringRec (FormatStringStep format a) rest

/-- The dot loop `for (int i = 0; i < countRef; i++) std::cout << ".";`
(color_printer.cpp lines 224-226): one dot per iteration, none when the
counter is nonpositive. -/
def dotRun (countRef : Int) : String :=
  String.mk (List.replicate countRef.toNat '.')

/-- The clear line written when the counter passes 100 (color_printer.cpp
line 217): a carriage return, the 22 spaces of the source literal, and a
second carriage return. -/
def clearLine : String :=
  "\r" ++ String.mk (List.replicate 22 ' ') ++ "\r"

/-- Embeds `ColorPrinter::PrintSilentStatusIndicator` (color_printer.cpp
lines 210-229). A call maps the old counter cell value to the new one,
paired with the emitted events: nothing on a `false` flag; otherwise the
incremented counter is first reset to 1 behind a clear-and-flush when it
exceeds 100, and then the full line is re-rendered from a carriage return
and flushed, with no trailing newline. -/
def PrintSilentStatusIndicator (color : PrintColor) (isSilent : Bool)
    (countRef : Int) : Int × List OutEvent :=
  if isSilent then
    let c2 := if countRef + 1 > 100 then 1 else countRef + 1
    let cleared : List OutEvent :=
      if countRef + 1 > 100 then [.write clearLine, .flush] else []
    let color_code := GetColorCode color
    (c2, cleared ++
      [.write ("\r" ++ color_code ++ "[INFO] " ++ dotRun c2 ++ "\x1b[0m"), .flush])
  else
    (countRef, [])

/-- Counter cell after `n` consecutive `true` calls starting from 0. -/
def runTrueCounter (color : PrintColor) : Nat → Int
  | 0 => 0
  | n + 1 => (PrintSilentStatusIndicator color true (runTrueCounter color n)).1

/-- Events emitted by the `(n+1)`-st consecutive `true` call starting
from 0. -/
def runTrueOutput (color : PrintColor) (n : Nat) : List OutEvent :=
  (PrintSilentStatusIndicator color true (runTrueCounter color n)).2

/-- Number of `.` characters in a string (observation function for the
rendered dot count). -/
def countDotsStr (s : String) : Nat := s.data.count '.'

/-- Number of `.` characters written across a list of output events. -/
def countDots : List OutEvent → Nat
  | [] => 0
  | .write s :: rest => countDotsStr s + countDots rest
  | .flush :: rest => countDots rest

end ColorPrinter

open ColorPrinter

theorem indicator_true_step (color : PrintColor) (m : Int) (h1 : m < 100) :
    PrintSilentStatusIndicator color true m =
      (m + 1, [OutEvent.write ("\r" ++ GetColorCode color ++ "[INFO] " ++
          dotRun (m + 1) ++ "\x1b[0m"), OutEvent.flush]) := by
  have h : ¬ (m + 1 > 100) := by omega
  simp [PrintSilentStatusIndicator, h]

theorem indicator_true_overflow (color : PrintColor) (m : Int) (h1 : 100 ≤ m) :
    PrintSilentStatusIndicator color true m =
      (1, [OutEvent.write clearLine, OutEvent.flush,
           OutEvent.write ("\r" ++ GetColorCode color ++ "[INFO] " ++
             dotRun 1 ++ "\x1b[0m"), OutEvent.flush]) := by
  have h : m + 1 > 100 := by omega
  simp [PrintSilentStatusIndicator, h]

theorem runTrueCounter_eq (color : PrintColor) :
    ∀ n : Nat, n ≤ 100 → runTrueCounter color n = (n : Int) := by
  intro n
  induction n with
  | zero => intro _; rfl
  | succ k ih =>
    intro hk
    have hk100 : k ≤ 100 := by omega
    have hklt : (k : Int) < 100 := by exact_mod_cast (by omega : k < 100)
    rw [show runTrueCounter color (k + 1) =
        (PrintSilentStatusIndicator color true (runTrueCounter color k)).1 from rfl,
      ih hk100, indicator_true_step color k hklt]
    push_cast
    ring

theorem countDotsStr_append (a b : String) :
    countDotsStr (a ++ b) = countDotsStr a + countDotsStr b := by
  simp [countDotsStr, String.data_append, List.count_append]

theorem countDotsStr_colorCode (color : PrintColor) :
    countDotsStr (GetColorCode color) = 0 := by cases color <;> decide

theorem countDotsStr_dotRun (m : Int) : countDotsStr (dotRun m) = m.toNat := by
  simp [countDotsStr, dotRun, List.count_replicate_self]

theorem countDotsStr_clearLine : countDotsStr clearLine = 0 := by decide

theorem countDotsStr_cr : countDotsStr "\r" = 0 := rfl

theorem countDotsStr_info : countDotsStr "[INFO] " = 0 := rfl

theorem countDotsStr_reset : countDotsStr "\x1b[0m" = 0 := rfl

theorem countDotsStr_render (color : PrintColor) (m : Int) :
    countDotsStr ("\r" ++ GetColorCode color ++ "[INFO] " ++ dotRun m ++ "\x1b[0m") =
      m.toNat := by
  simp [countDotsStr_append, countDotsStr_colorCode, countDotsStr_dotRun,
    countDotsStr_cr, countDotsStr_info, countDotsStr_reset]

/-- C1: for the progress indicator, starting from a counter cell holding 0,
the `(n+1)`-st of 100 consecutive `true` calls leaves the counter at `n+1`
and renders a carriage return, the color code, the literal prefix
`"[INFO] "`, exactly `n+1` dots and the reset code, with no trailing
newline, followed by a flush; the 101-st `true` call resets the counter to
1 (after clearing), not 101. -/
theorem C1_progress_sequence (color : PrintColor) (n : Nat) (hn : n < 100) :
    runTrueCounter color (n + 1) = (n : Int) + 1 ∧
    runTrueOutput color n =
      [OutEvent.write ("\r" ++ GetColorCode color ++ "[INFO] " ++
          dotRun ((n : Int) + 1) ++ "\x1b[0m"), OutEvent.flush] ∧
    (dotRun ((n : Int) + 1)).data = List.replicate (n + 1) '.' ∧
    runTrueCounter color 101 = 1 ∧
    runTrueOutput color 100 =
      [OutEvent.write clearLine, OutEvent.flush,
       OutEvent.write ("\r" ++ GetColorCode color ++ "[INFO] " ++
         dotRun 1 ++ "\x1b[0m"), OutEvent.flush] := by
  have hc : runTrueCounter color n = (n : Int) := runTrueCounter_eq color n (by omega)
  have hlt : (n : Int) < 100 := by exact_mod_cast hn
  have h100 : runTrueCounter color 100 = (100 : Int) := runTrueCounter_eq color 100 (by omega)
  refine ⟨?_, ?_, ?_, ?_, ?_⟩
  · rw [show runTrueCounter color (n + 1) =
        (PrintSilentStatusIndicator color true (runTrueCounter color n)).1 from rfl,
      hc, indicator_true_step color n hlt]
  · rw [runTrueOutput, hc, indicator_true_step color n hlt]
  · have ht : ((n : Int) + 1).toNat = n + 1 := by omega
    simp [dotRun, ht]
  · rw [show runTrueCounter color 101 =
        (PrintSilentStatusIndicator color true (runTrueCounter color 100)).1 from rfl,
      h100, indicator_true_overflow color 100 (by norm_num)]
  · rw [runTrueOutput, h100, indicator_true_overflow color 100 (by norm_num)]

theorem C1_progress_sequence_witness :
    runTrueCounter PrintColor.RED (0 + 1) = ((0 : Nat) : Int) + 1 ∧
    runTrueOutput PrintColor.RED 0 =
      [OutEvent.write ("\r" ++ GetColorCode PrintColor.RED ++ "[INFO] " ++
          dotRun (((0 : Nat) : Int) + 1) ++ "\x1b[0m"), OutEvent.flush] ∧
    (dotRun (((0 : Nat) : Int) + 1)).data = List.replicate (0 + 1) '.' ∧
    runTrueCounter PrintColor.RED 101 = 1 ∧
    runTrueOutput PrintColor.RED 100 =
      [OutEvent.write clearLine, OutEvent.flush,
       OutEvent.write ("\r" ++ GetColorCode PrintColor.RED ++ "[INFO] " ++
         dotRun 1 ++ "\x1b[0m"), OutEvent.flush] :=
  C1_progress_sequence PrintColor.RED 0 (by norm_num)

/-- C2: for every color, label and string payload, the string overload of
`PrintColoredMessage` writes exactly the color code, then the bracketed
label, a space, the payload, the reset code and a newline; the seven
enumerators carry their documented ANSI escape sequences. -/
theorem C2_colored_line_shape (color : PrintColor) (type message : String) :
    PrintColoredMessageStr color type message =
      [OutEvent.write (GetColorCode color ++ "[" ++ type ++ "] " ++ message ++
          "\x1b[0m" ++ "\n"), OutEvent.flush] ∧
    GetColorCode PrintColor.RED = "\x1b[31m" ∧
    GetColorCode PrintColor.GREEN = "\x1b[32m" ∧
    GetColorCode PrintColor.YELLOW = "\x1b[33m" ∧
    GetColorCode PrintColor.BLUE = "\x1b[34m" ∧
    GetColorCode PrintColor.MAGENTA = "\x1b[35m" ∧
    GetColorCode PrintColor.CYAN = "\x1b[36m" ∧
    GetColorCode PrintColor.WHITE = "\x1b[37m" := by
  refine ⟨?_, by decide, by decide, by decide, by decide, by decide, by decide, by decide⟩
  cases h : message.data.contains '%' <;> simp [PrintColoredMessageStr, h]

/-- C3 evaluated at the failing input: on the call that pushes the counter
past 100, the emitted clear line holds only the 22 spaces of the source
literal between its two carriage returns, while the maximum rendered width
(`"[INFO] "` plus 100 dots) is 107 columns; the counter is reset to 1 and
the line is re-rendered with one dot. -/
theorem C3_clear_width_at_overflow :
    PrintSilentStatusIndicator PrintColor.GREEN true 100 =
      (1, [OutEvent.write clearLine, OutEvent.flush,
           OutEvent.write ("\r" ++ GetColorCode PrintColor.GREEN ++ "[INFO] " ++
             dotRun 1 ++ "\x1b[0m"), OutEvent.flush]) ∧
    clearLine.data = '\r' :: (List.replicate 22 ' ' ++ ['\r']) ∧
    ("[INFO] ".length + (100 : Nat) = 107) ∧ (22 : Nat) ≠ 107 :=
  ⟨indicator_true_overflow PrintColor.GREEN 100 (by norm_num), by decide, by decide, by decide⟩

/-- C4 counterexample: the formatted colored line emission path applies no
literal-`%` fallback. At the format `"%-z"` with argument rendered `"42"`,
the scan past the `%` fails, so the claimed fallback demands the payload
`"42-z"` (which the `FormatString` template indeed produces); but the
emission path prints the text reported by the external `vsnprintf`
unmodified: with the probe result `⟨3, "%-z"⟩` (the invalid specifier
passed through) the emitted payload is `"%-z"`, not `"42-z"`. -/
theorem C4_emission_counterexample :
    FormatStringStep (String.mk ['%', '-', 'z']) "42" = "42-z" ∧
    (scanSpec ['-', 'z']).2 = false ∧
    PrintColoredMessageFmt PrintColor.RED "INFO" ⟨3, String.mk ['%', '-', 'z']⟩ =
      [OutEvent.write (GetColorCode PrintColor.RED ++ "[" ++ "INFO" ++ "] " ++
          String.mk ['%', '-', 'z'] ++ "\x1b[0m" ++ "\n"), OutEvent.flush] ∧
    String.mk ['%', '-', 'z'] ≠ "42-z" :=
  ⟨by decide, by decide, by decide, by decide⟩

/-- C4 (amended): the literal-`%` fallback holds of the `FormatString`
template: whenever the scan that starts just past the first `%` fails to
find a valid conversion-type character, the substitution replaces just the
`%` with the default textual rendering of the argument and keeps everything
else, both in a single step and through the variadic recursion. The
formatted colored line emission path does not invoke this template: its
payload is exactly `FormatPrintf vsn`, the text reported by the external
`vsnprintf`, passed through with no fallback of its own. -/
theorem C4_fallback_only_in_template (pre post : List Char) (arg : String)
    (color : PrintColor) (type : String) (vsn : VsnprintfResult)
    (hpre : '%' ∉ pre) (hscan : (scanSpec post).2 = false) :
    FormatStringStep (String.mk (pre ++ '%' :: post)) arg =
      String.mk (pre ++ (arg.data ++ post)) ∧
    FormatStringRec (String.mk (pre ++ '%' :: post)) [arg] =
      String.mk (pre ++ (arg.data ++ post)) ∧
    PrintColoredMessageFmt color type vsn =
      [OutEvent.write (GetColorCode color ++ "[" ++ type ++ "] " ++
          FormatPrintf vsn ++ "\x1b[0m" ++ "\n"), OutEvent.flush] := by
  have key : ∀ p : List Char, '%' ∉ p →
      fs1 arg.data (p ++ '%' :: post) = p ++ (arg.data ++ post) := by
    intro p
    induction p with
    | nil => intro _; simp [fs1, hscan]
    | cons c cs ih =>
      intro hp
      have hc : ¬ (c = '%') := fun hh => hp (by simp [hh])
      have hcs : '%' ∉ cs := fun hm => hp (List.mem_cons_of_mem _ hm)
      simp only [List.cons_append, fs1, if_neg hc]
      exact congrArg (List.cons c) (ih hcs)
  have h1 : FormatStringStep (String.mk (pre ++ '%' :: post)) arg =
      String.mk (pre ++ (arg.data ++ post)) := by
    unfold FormatStringStep
    exact congrArg String.mk (key pre hpre)
  refine ⟨h1, ?_, rfl⟩
  rw [show FormatStringRec (String.mk (pre ++ '%' :: post)) [arg] =
      FormatStringStep (String.mk (pre ++ '%' :: post)) arg from rfl, h1]

theorem C4_fallback_only_in_template_witness :
    FormatStringStep (String.mk ([] ++ '%' :: ['-', 'z'])) "42" =
      String.mk ([] ++ ("42".data ++ ['-', 'z'])) ∧
    FormatStringRec (String.mk ([] ++ '%' :: ['-', 'z'])) ["42"] =
      String.mk ([] ++ ("42".data ++ ['-', 'z'])) ∧
    PrintColoredMessageFmt PrintColor.GREEN "INFO" ⟨2, "85"⟩ =
      [OutEvent.write (GetColorCode PrintColor.GREEN ++ "[" ++ "INFO" ++ "] " ++
          FormatPrintf ⟨2, "85"⟩ ++ "\x1b[0m" ++ "\n"), OutEvent.flush] :=
  C4_fallback_only_in_template [] ['-', 'z'] "42" PrintColor.GREEN "INFO" ⟨2, "85"⟩
    (by decide) (by decide)

/-- C5: when the external printf mechanism reports failure through a
negative size, `FormatPrintf` returns the empty string and the formatted
overload still prints the colored, labeled line with empty content. -/
theorem C5_format_failure_empty (color : PrintColor) (type : String)
    (vsn : VsnprintfResult) (h : vsn.size < 0) :
    FormatPrintf vsn = "" ∧
    PrintColoredMessageFmt color type vsn =
      [OutEvent.write (GetColorCode color ++ "[" ++ type ++ "] " ++ "" ++
          "\x1b[0m" ++ "\n"), OutEvent.flush] := by
  have h1 : FormatPrintf vsn = "" := by simp [FormatPrintf, h]
  refine ⟨h1, ?_⟩
  simp [PrintColoredMessageFmt, h1]

theorem C5_format_failure_empty_witness :
    FormatPrintf ⟨-1, "oops"⟩ = "" ∧
    PrintColoredMessageFmt PrintColor.RED "ERROR" ⟨-1, "oops"⟩ =
      [OutEvent.write (GetColorCode PrintColor.RED ++ "[" ++ "ERROR" ++ "] " ++ "" ++
          "\x1b[0m" ++ "\n"), OutEvent.flush] :=
  C5_format_failure_empty PrintColor.RED "ERROR" ⟨-1, "oops"⟩ (by decide)

/-- C6: a payload containing `%` passed to the argument-free `const char*`
or `std::string` overload is printed verbatim: the emitted line has exactly
the same shape as for any other payload, and the two overloads agree. -/
theorem C6_percent_payload_verbatim (color : PrintColor) (type message : String)
    (h : '%' ∈ message.data) :
    PrintColoredMessageStr color type message =
      [OutEvent.write (GetColorCode color ++ "[" ++ type ++ "] " ++ message ++
          "\x1b[0m" ++ "\n"), OutEvent.flush] ∧
    PrintColoredMessageCstr color type message =
      [OutEvent.write (GetColorCode color ++ "[" ++ type ++ "] " ++ message ++
          "\x1b[0m" ++ "\n"), OutEvent.flush] ∧
    PrintColoredMessageCstr color type message =
      PrintColoredMessageStr color type message := by
  have hb : message.data.contains '%' = true := by
    simpa using h
  refine ⟨?_, ?_, ?_⟩ <;> simp [PrintColoredMessageStr, PrintColoredMessageCstr, hb]

theorem C6_percent_payload_verbatim_witness :
    PrintColoredMessageStr PrintColor.RED "INFO" "50%" =
      [OutEvent.write (GetColorCode PrintColor.RED ++ "[" ++ "INFO" ++ "] " ++ "50%" ++
          "\x1b[0m" ++ "\n"), OutEvent.flush] ∧
    PrintColoredMessageCstr PrintColor.RED "INFO" "50%" =
      [OutEvent.write (GetColorCode PrintColor.RED ++ "[" ++ "INFO" ++ "] " ++ "50%" ++
          "\x1b[0m" ++ "\n"), OutEvent.flush] ∧
    PrintColoredMessageCstr PrintColor.RED "INFO" "50%" =
      PrintColoredMessageStr PrintColor.RED "INFO" "50%" :=
  C6_percent_payload_verbatim PrintColor.RED "INFO" "50%" (by decide)

/-- C7: a call to the progress indicator with flag `false` is a no-op for
every color and counter value: the counter is unchanged (never reset) and
nothing is written. -/
theorem C7_false_flag_noop (color : PrintColor) (countRef : Int) :
    PrintSilentStatusIndicator color false countRef = (countRef, []) := rfl

/-- C8: the boolean overload renders `true` as the word `"true"` and
`false` as the word `"false"`, and these words differ from `"1"` and
`"0"`. -/
theorem C8_bool_renders_words (color : PrintColor) (type : String) :
    PrintColoredMessageBool color type true =
      [OutEvent.write (GetColorCode color ++ "[" ++ type ++ "] " ++ "true" ++
          "\x1b[0m" ++ "\n"), OutEvent.flush] ∧
    PrintColoredMessageBool color type false =
      [OutEvent.write (GetColorCode color ++ "[" ++ type ++ "] " ++ "false" ++
          "\x1b[0m" ++ "\n"), OutEvent.flush] ∧
    ("true" : String) ≠ "1" ∧ ("false" : String) ≠ "0" :=
  ⟨rfl, rfl, by decide, by decide⟩

/-- C9: the counter cell invariant of the progress indicator: from any
value in [0, 100], one call (either flag) leaves the cell in [0, 100];
after a `true` call the cell is in [1, 100] and equals the number of dot
characters just written. -/
theorem C9_counter_invariant (color : PrintColor) (flag : Bool) (n : Int)
    (h0 : 0 ≤ n) (h1 : n ≤ 100) :
    (0 ≤ (PrintSilentStatusIndicator color flag n).1 ∧
        (PrintSilentStatusIndicator color flag n).1 ≤ 100) ∧
    (flag = true →
      1 ≤ (PrintSilentStatusIndicator color flag n).1 ∧
      (PrintSilentStatusIndicator color flag n).1 ≤ 100 ∧
      (countDots (PrintSilentStatusIndicator color flag n).2 : Int) =
        (PrintSilentStatusIndicator color flag n).1) := by
  cases flag with
  | false => exact ⟨⟨h0, h1⟩, fun hh => by cases hh⟩
  | true =>
    by_cases hover : 100 ≤ n
    · have hn100 : n = 100 := le_antisymm h1 hover
      subst hn100
      rw [indicator_true_overflow color 100 (by norm_num)]
      refine ⟨⟨by norm_num, by norm_num⟩, fun _ => ⟨by norm_num, by norm_num, ?_⟩⟩
      simp [countDots, countDotsStr_clearLine, countDotsStr_render]
    · have hlt : n < 100 := by omega
      rw [indicator_true_step color n hlt]
      refine ⟨⟨by omega, by omega⟩, fun _ => ⟨by omega, by omega, ?_⟩⟩
      simp only [countDots, countDotsStr_render]
      omega

theorem C9_counter_invariant_witness :
    (0 ≤ (PrintSilentStatusIndicator PrintColor.BLUE true 5).1 ∧
        (PrintSilentStatusIndicator PrintColor.BLUE true 5).1 ≤ 100) ∧
    (true = true →
      1 ≤ (PrintSilentStatusIndicator PrintColor.BLUE true 5).1 ∧
      (PrintSilentStatusIndicator PrintColor.BLUE true 5).1 ≤ 100 ∧
      (countDots (PrintSilentStatusIndicator PrintColor.BLUE true 5).2 : Int) =
        (PrintSilentStatusIndicator PrintColor.BLUE true 5).1) :=
  C9_counter_invariant PrintColor.BLUE true 5 (by norm_num) (by norm_num)

/-- C10: `GetColorCode` is total: the seven enumerators carry pairwise
distinct color escape sequences, none of which is the reset sequence, and
the `default:` branch of the underlying switch maps every out-of-range
underlying value to the reset sequence `"\x1b[0m"`. -/
theorem C10_color_code_total :
    (∀ a b : PrintColor, GetColorCode a = GetColorCode b → a = b) ∧
    (∀ c : PrintColor, GetColorCode c ≠ "\x1b[0m") ∧
    (∀ i : Int, i < 0 ∨ 6 < i → GetColorCodeRaw i = "\x1b[0m") := by
  refine ⟨by decide, by decide, ?_⟩
  intro i hi
  unfold GetColorCodeRaw
  rw [if_neg (by omega), if_neg (by omega), if_neg (by omega), if_neg (by omega),
    if_neg (by omega), if_neg (by omega), if_neg (by omega)]

theorem C10_color_code_total_witness : GetColorCodeRaw 7 = "\x1b[0m" :=
  C10_color_code_total.2.2 7 (Or.inr (by norm_num))
